import Mathlib

/-!
Shallow embedding of `src/opentoksrc-remote/imp.rs` from the
`gst-plugin-opentok` repository: the IPC-driven endpoint lifecycle
controller of the `OpenTokSrcRemote` GStreamer element.

Modelling conventions:
* The caller-owned pipeline graph (`gst::Bin` element tree) is a
  `GraphState`: the list of per-stream inner bins added to the top-level
  bin, plus the list of ghost-pad names exposed on the top-level bin.
* A Rust `.unwrap()` on an operation that can fail in the model is a
  `RunOut.halted` outcome: the thread dies at that point with the state
  reached so far (earlier side effects of the same source function are
  kept, matching the imperative code).  GStreamer primitives that cannot
  fail for the inputs this element produces (element factories for
  `bin`/`shmsrc`/`capsfilter` being registered, linking two fresh
  elements inside a fresh bin, `set_state(Null)` on a locked bin,
  removing a pad just looked up) are modelled as total.  Caps strings
  are kept opaque (`Caps::from_str` is not re-modelled); `gst_bin_add`
  and `gst_element_add_pad` refuse duplicate names, which the model
  keeps because it decides how double-adds behave.
* The one-shot removal acknowledgement channel (`ipc_sender` of type
  `IpcSender<()>`) is modelled by a numeric channel id; sending on it
  appends the id to an `acks` log.
* The child process handle (`Child`) is a numeric pid; `interrupt()`
  appends the pid to an `interrupted` log; `post_message` of an error
  appends the message text to a `posted` log.
* The result of `bin.state(None)` (waiting for the stopped state) is
  discarded by the source (`let _ = bin.state(None);`); the model keeps
  it as an explicit boolean argument that the definition ignores, so
  that independence from it is provable.
* `gst_bin_get_by_name` searches recursively.  In `remove_stream` the
  looked-up name is a socket file name and in `update_caps` it is
  `capsfilter_<pad>`; collisions between those two namespaces (a socket
  file literally named `capsfilter_...`) are not modelled.
-/

namespace OpenTokSrcRemote

/-- Payload of a per-kind stream message (`StreamMessageData` in
`crate::common`), as consumed by the audio and video worker threads. -/
inductive StreamMessageData where
  | shmSocketPathAdded (socketPath : String) (caps : String) (padName : String)
  | shmSocketPathRemoved (socketPath : String) (ackId : Nat)
  | capsChanged (caps : String) (padName : String)
  deriving DecidableEq

/-- A stream message tagged with its media kind (`StreamMessage`). -/
inductive StreamMessage where
  | audio (d : StreamMessageData)
  | video (d : StreamMessageData)
  deriving DecidableEq

/-- A message received on the IPC channel (`IpcMessage`).  `other`
stands for the remaining variants, all ignored by the control loop
(`_ => {}` in the source). -/
inductive IpcMessage where
  | error (msg : String)
  | stream (m : StreamMessage)
  | other
  deriving DecidableEq

/-- The `Stream` enum of the source: the kind of stream together with
the caps string carried by the add message. -/
inductive Stream where
  | audio (caps : String)
  | video (caps : String)
  deriving DecidableEq

/-- Caps string carried by a `Stream` value (the `match` at the start of
`init_stream_pipeline`). -/
def Stream.capsStr : Stream → String
  | .audio c => c
  | .video c => c

/-- Media kind of a worker thread. -/
inductive Kind where
  | audio
  | video
  deriving DecidableEq

/-- The hard-coded stream name each worker thread passes to
`remove_stream` (`"audio_stream"` at line 374, `"video_stream"` at
line 421 of the source). -/
def Kind.streamName : Kind → String
  | .audio => "audio_stream"
  | .video => "video_stream"

/-- Wrap a caps string into the `Stream` value the worker thread builds
(`Stream::Audio(caps)` / `Stream::Video(caps)`). -/
def Kind.toStream : Kind → String → Stream
  | .audio, c => Stream.audio c
  | .video, c => Stream.video c

/-- One inner bin added below the top-level bin by
`init_stream_pipeline`: named after the socket file name, holding a
`shmsrc` and a `capsfilter`.  `caps` is the current value of the
capsfilter's `caps` property; `srcCapsPushed` logs the explicit
`update_src_caps` renegotiation requests issued on the capsfilter. -/
structure EndpointBin where
  name : String
  socketPath : String
  shmsrcName : String
  capsfilterName : String
  caps : String
  srcCapsPushed : List String
  deriving DecidableEq

/-- The mutable state of the element's pipeline graph: inner bins of the
top-level bin and the ghost pads exposed on the top-level bin, each in
order of addition. -/
structure GraphState where
  bins : List EndpointBin
  pads : List String
  deriving DecidableEq

/-- Outcome of running imperative code that may hit a Rust panic
(`unwrap` on a failing operation): either the final state, or the state
reached when the thread died together with a tag for the panic site. -/
inductive RunOut (α : Type) where
  | ok (a : α)
  | halted (a : α) (msg : String)
  deriving DecidableEq

/-- State reached by a run, whether or not it panicked. -/
def RunOut.state {α : Type} : RunOut α → α
  | .ok a => a
  | .halted a _ => a

/-- Whether the run died in a panic. -/
def RunOut.isHalted {α : Type} : RunOut α → Bool
  | .ok _ => false
  | .halted _ _ => true

/-- Split a character list on a separator, keeping empty groups. -/
def splitOnChar (sep : Char) (cs : List Char) : List (List Char) :=
  cs.foldr
    (fun c acc =>
      match acc with
      | [] => [[c]]
      | grp :: rest => if c = sep then [] :: grp :: rest else (c :: grp) :: rest)
    [[]]

/-- `Path::new(&socket_path).file_name()`: the final normal component of
the path, `none` when the path is empty, a bare root, or terminates in
`..` (the cases where Rust returns `None` and the source's `unwrap`
panics). -/
def fileName (path : String) : Option String :=
  let comps := (splitOnChar '/' path.toList).filter fun c => !(c.isEmpty || c == ['.'])
  match comps.getLast? with
  | none => none
  | some c => if c == ['.', '.'] then none else some (String.mk c)

/-- `init_stream_pipeline`: build the inner bin named after the socket
file name (shmsrc linked to a capsfilter, ghost `src` pad), add it to
the top-level bin, expose a ghost pad named `padName` on the top-level
bin, and sync state.  Panics (in source order): `file_name().unwrap()`
on a degenerate path; `toplevel_bin.add(&bin).unwrap()` when a child
with the same name already exists; `toplevel_bin.add_pad(..).unwrap()`
when a pad with the same name already exists — at that point the inner
bin has already been added. -/
def init_stream_pipeline (g : GraphState) (streamType : Stream)
    (socketPath : String) (padName : String) : RunOut GraphState :=
  match fileName socketPath with
  | none => RunOut.halted g "file_name unwrap"
  | some socketId =>
    let newBin : EndpointBin :=
      { name := socketId
        socketPath := socketPath
        shmsrcName := "shmsrc_" ++ padName
        capsfilterName := "capsfilter_" ++ padName
        caps := streamType.capsStr
        srcCapsPushed := [] }
    if g.bins.any fun b => b.name == socketId then
      RunOut.halted g "toplevel add unwrap"
    else
      let g1 : GraphState := { g with bins := g.bins ++ [newBin] }
      if g1.pads.contains padName then
        RunOut.halted g1 "add_pad unwrap"
      else
        RunOut.ok { g1 with pads := g1.pads ++ [padName] }

/-- `remove_stream`: look up the inner bin by the socket file name; when
absent return `Ok(())` without touching the graph; when present lock
it, send EOS, drive it to Null, wait for the state change discarding
the result (`let _ = bin.state(None)`, the `stateWaitOk` argument),
remove the bin, then look up the top-level pad named `streamName` and
remove it.  Panics: `file_name().unwrap()`; `static_pad(stream_name)
.unwrap()` when no top-level pad carries that name — the bin removal
has already happened at that point. -/
def remove_stream (g : GraphState) (streamName : String)
    (socketPath : String) (stateWaitOk : Bool) : RunOut GraphState :=
  match fileName socketPath with
  | none => RunOut.halted g "file_name unwrap"
  | some socketId =>
    match g.bins.find? (fun b => b.name == socketId) with
    | none => RunOut.ok g
    | some _ =>
      let g1 : GraphState := { g with bins := g.bins.eraseP fun b => b.name == socketId }
      if g1.pads.contains streamName then
        RunOut.ok { g1 with pads := g1.pads.erase streamName }
      else
        RunOut.halted g1 "static_pad unwrap"

/-- Replace the capsfilter caps and log the explicit downstream
renegotiation request on the first bin whose capsfilter carries the
target name (the recursive `by_name` lookup of `update_caps`). -/
def setCapsFirst (target capsStr : String) : List EndpointBin → List EndpointBin
  | [] => []
  | b :: rest =>
    if b.capsfilterName = target then
      { b with caps := capsStr, srcCapsPushed := b.srcCapsPushed ++ [capsStr] } :: rest
    else
      b :: setCapsFirst target capsStr rest

/-- `update_caps`: look up `capsfilter_<padName>` by name; when found,
set its `caps` property to the new caps and explicitly push the new
caps downstream via `update_src_caps` (the unsafe `BaseTransform`
downcast); when absent, do nothing. -/
def update_caps (g : GraphState) (capsStr : String) (padName : String) : GraphState :=
  { g with bins := setCapsFirst ("capsfilter_" ++ padName) capsStr g.bins }

/-- Shared mutable state visible to a worker thread: the graph, the
child process handle, and the logs of interrupt signals, posted bus
error messages, and removal acknowledgements. -/
structure SysState where
  graph : GraphState
  child : Option Nat
  interrupted : List Nat
  posted : List String
  acks : List Nat
  deriving DecidableEq

/-- `critical_error`: log, take the child process handle and interrupt
it when present, and post exactly one error message on the bus. -/
def critical_error (e : String) (s : SysState) : SysState :=
  { s with
      child := none
      interrupted := s.interrupted ++ s.child.toList
      posted := s.posted ++ ["Child process error " ++ e] }

/-- One iteration of a worker (audio or video) thread loop body on a
dequeued message.  `ShmSocketPathAdded` runs `init_stream_pipeline`;
its `Result::Err` values (missing `shmsrc`/`capsfilter` factory, add or
link failure inside the fresh bin) cannot arise in the model, so the
`critical_error` escalation on that arm is unreachable here; its
panics kill the thread.  `ShmSocketPathRemoved` runs `remove_stream`
with the kind's hard-coded stream name and sends the acknowledgement
exactly when it returns `Ok` (the source's `Err` arm is dead code:
`remove_stream` only ever returns `Ok(())`).  `CapsChanged` is handled
only by the video thread (the audio thread's `_ => {}`). -/
def workerStep (k : Kind) (msg : StreamMessageData) (stateWaitOk : Bool)
    (s : SysState) : RunOut SysState :=
  match msg with
  | .shmSocketPathAdded p caps padName =>
    match init_stream_pipeline s.graph (k.toStream caps) p padName with
    | .ok g => RunOut.ok { s with graph := g }
    | .halted g m => RunOut.halted { s with graph := g } m
  | .shmSocketPathRemoved p ackId =>
    match remove_stream s.graph k.streamName p stateWaitOk with
    | .ok g => RunOut.ok { s with graph := g, acks := s.acks ++ [ackId] }
    | .halted g m => RunOut.halted { s with graph := g } m
  | .capsChanged caps padName =>
    match k with
    | .audio => RunOut.ok s
    | .video => RunOut.ok { s with graph := update_caps s.graph caps padName }

/-- Run a worker thread over the messages it dequeues, stopping at the
first panic (the thread dies; later queued messages are never
processed). -/
def runWorker (k : Kind) (stateWaitOk : Bool) :
    List StreamMessageData → SysState → RunOut SysState
  | [], s => RunOut.ok s
  | m :: rest, s =>
    match workerStep k m stateWaitOk s with
    | .ok s1 => runWorker k stateWaitOk rest s1
    | .halted s1 e => RunOut.halted s1 e

/-- Observable outcome of the control thread loop: the two worker
queues in the order the messages were forwarded, the child process
handle afterwards, and the interrupt and bus-error logs. -/
structure ControlOut where
  audioQ : List StreamMessageData
  videoQ : List StreamMessageData
  child : Option Nat
  interrupted : List Nat
  posted : List String
  deriving DecidableEq

/-- The control thread loop over the sequence of messages the IPC
receiver yields.  `IpcMessage::Error` runs `critical_error` (interrupt
the child when present, post one bus error) and breaks out of the loop,
so nothing after it is forwarded; `Audio`/`Video` stream messages are
forwarded unchanged to the matching worker queue; other messages are
ignored.  The `try_recv` would-block arm only sleeps and retries, which
the list abstraction elides; the end of the list stands for the
running flag being observed cleared. -/
def runControl : List IpcMessage → Option Nat → ControlOut
  | [], child =>
    { audioQ := [], videoQ := [], child := child, interrupted := [], posted := [] }
  | IpcMessage.error e :: _, child =>
    { audioQ := [], videoQ := [], child := none, interrupted := child.toList,
      posted := ["Child process error " ++ e] }
  | IpcMessage.stream (StreamMessage.audio d) :: rest, child =>
    let out := runControl rest child
    { out with audioQ := d :: out.audioQ }
  | IpcMessage.stream (StreamMessage.video d) :: rest, child =>
    let out := runControl rest child
    { out with videoQ := d :: out.videoQ }
  | IpcMessage.other :: rest, child => runControl rest child

/-- Whether an IPC message is the session-fatal `Error` variant. -/
def isError : IpcMessage → Bool
  | .error _ => true
  | _ => false

/-- The audio-tagged payloads of an IPC message sequence, in order. -/
def routeAudio : List IpcMessage → List StreamMessageData
  | [] => []
  | IpcMessage.stream (StreamMessage.audio d) :: rest => d :: routeAudio rest
  | _ :: rest => routeAudio rest

/-- The video-tagged payloads of an IPC message sequence, in order. -/
def routeVideo : List IpcMessage → List StreamMessageData
  | [] => []
  | IpcMessage.stream (StreamMessage.video d) :: rest => d :: routeVideo rest
  | _ :: rest => routeVideo rest

/-- The credential record as read through the accessors the source
calls on `crate::common::Credentials` (an external collaborator of this
core): `api_key()`, `session_id()`, `token()`, `room_uri()` and
`stream_id()`, each an optional value.  `streamIdField` is the stream
id carried by a parsed location URL. -/
structure Credentials where
  apiKey : Option String
  sessionId : Option String
  token : Option String
  roomUri : Option String
  streamIdField : Option String
  deriving DecidableEq

/-- The element-level mutable state of `OpenTokSrcRemote`: the child
process handle, the stored credentials, the set-once stream id
(`OnceCell<String>`), and the shared running flag. -/
structure SrcState where
  child : Option Nat
  credentials : Credentials
  streamId : Option String
  auxThreadsRunning : Bool
  deriving DecidableEq

/-- `teardown`: clear the running flag, then take the child process
handle and interrupt it when present.  Returns the new state and the
list of interrupt signals issued by this call. -/
def teardown (s : SrcState) : SrcState × List Nat :=
  let s1 : SrcState := { s with auxThreadsRunning := false }
  match s1.child with
  | some p => ({ s1 with child := none }, [p])
  | none => (s1, [])

/-- The credential block of the worker's argument list: the
api-key/session-id/token triple when `api_key()` is present, otherwise
the room uri.  `none` models the panic of the source's `unwrap()` on a
missing `session_id`/`token`/`room_uri`. -/
def credArgs (c : Credentials) : Option (List String) :=
  match c.apiKey with
  | some k =>
    match c.sessionId, c.token with
    | some sid, some tok => some ["--api-key", k, "--session-id", sid, "--token", tok]
    | _, _ => none
  | none =>
    match c.roomUri with
    | some r => some ["--room-uri", r]
    | none => none

/-- The optional trailing `--stream-id` argument. -/
def streamIdArgs : Option String → List String
  | some i => ["--stream-id", i]
  | none => []

/-- Outcome of `launch_child_process`: success stores the spawned
child handle; `launchFailed` is `Error::OpenTokRemoteLaunchFailed`
(spawn failure, state unchanged, no retry); `halted` models the panics
of the credential-field unwraps. -/
inductive LaunchOut where
  | ok (s : SrcState) (args : List String)
  | launchFailed (s : SrcState) (args : List String)
  | halted (msg : String)
  deriving DecidableEq

/-- `launch_child_process`: build the worker's argument list — the
direction flag, the IPC rendezvous name, the credential block, then the
optional `--stream-id` — and spawn `gst-opentok-helper` once.  The
spawn outcome is the environment's (`spawnOk`/`pid`); on success the
child handle is stored, on failure `OpenTokRemoteLaunchFailed` is
returned with the state untouched. -/
def launch_child_process (s : SrcState) (ipcServerName : String)
    (spawnOk : Bool) (pid : Nat) : LaunchOut :=
  match credArgs s.credentials with
  | none => LaunchOut.halted "credentials unwrap"
  | some ca =>
    let args := ["--direction", "src", "--ipc-server", ipcServerName]
      ++ ca ++ streamIdArgs s.streamId
    if spawnOk then LaunchOut.ok { s with child := some pid } args
    else LaunchOut.launchFailed s args

/-- `set_stream_id`: `OnceCell::set`, which errors without overwriting
when the stream id was already set.  Returns the new state and the
error, if any. -/
def set_stream_id (s : SrcState) (id : String) : SrcState × Option String :=
  match s.streamId with
  | some _ => (s, some "Stream ID can only be set once")
  | none => ({ s with streamId := some id }, none)

/-- `set_location`: parse the location string into credentials
(`Url::parse` followed by the `Credentials` conversion, both in the
external collaborator; `parsed = none` models a parse error).  When the
parsed credentials carry a non-empty stream id, first try
`set_stream_id`, propagating its error (the `?`) before the store; the
new credentials are assigned only on the success path. -/
def set_location (s : SrcState) (parsed : Option Credentials) :
    SrcState × Option String :=
  match parsed with
  | none => (s, some "Malformed url")
  | some creds =>
    let step :=
      match creds.streamIdField with
      | some sid => if sid = "" then (s, none) else set_stream_id s sid
      | none => (s, none)
    match step with
    | (s1, none) => ({ s1 with credentials := creds }, none)
    | (s1, some e) => (s1, some e)

/-! Concrete states and message sequences used by the closed theorems
and witnesses below. -/

/-- The empty pipeline graph of a freshly initialized element. -/
def g0 : GraphState := { bins := [], pads := [] }

/-- Initial shared state: empty graph, live child process `1`. -/
def sys0 : SysState :=
  { graph := g0, child := some 1, interrupted := [], posted := [], acks := [] }

/-- Initial shared state: empty graph, live child process `2`. -/
def sys0b : SysState :=
  { graph := g0, child := some 2, interrupted := [], posted := [], acks := [] }

/-- The video endpoint-added event of the spec's scenario. -/
def c1AddMsg : StreamMessageData :=
  StreamMessageData.shmSocketPathAdded "/tmp/sock1"
    "video/x-raw, width=640, height=480" "video_stream_0"

/-- The spec's scenario pair: add the video endpoint, then remove it. -/
def c1Seq : List StreamMessageData :=
  [c1AddMsg, StreamMessageData.shmSocketPathRemoved "/tmp/sock1" 7]

/-- An audio add/remove pair whose pad name equals the worker's
hard-coded stream name. -/
def c1AudioSeq : List StreamMessageData :=
  [StreamMessageData.shmSocketPathAdded "/tmp/asock" "audio/x-raw, rate=48000" "audio_stream",
   StreamMessageData.shmSocketPathRemoved "/tmp/asock" 4]

/-- A second video add/remove pair (distinct constants). -/
def c3VideoSeq : List StreamMessageData :=
  [StreamMessageData.shmSocketPathAdded "/tmp/sockB" "video/x-raw, width=320" "video_stream_1",
   StreamMessageData.shmSocketPathRemoved "/tmp/sockB" 9]

/-- A second audio add/remove pair (distinct constants). -/
def c3AudioSeq : List StreamMessageData :=
  [StreamMessageData.shmSocketPathAdded "/tmp/sockC" "audio/x-raw, rate=44100" "audio_stream",
   StreamMessageData.shmSocketPathRemoved "/tmp/sockC" 11]

/-- A live video endpoint bin as built by `init_stream_pipeline`. -/
def binEx : EndpointBin :=
  { name := "sockE"
    socketPath := "/tmp/sockE"
    shmsrcName := "shmsrc_video_stream_0"
    capsfilterName := "capsfilter_video_stream_0"
    caps := "video/x-raw, width=640"
    srcCapsPushed := [] }

/-- `binEx` after a caps update to `video/x-raw, width=1280`: new
declared caps and one logged downstream propagation request. -/
def binExUpdated : EndpointBin :=
  { name := "sockE"
    socketPath := "/tmp/sockE"
    shmsrcName := "shmsrc_video_stream_0"
    capsfilterName := "capsfilter_video_stream_0"
    caps := "video/x-raw, width=1280"
    srcCapsPushed := ["video/x-raw, width=1280"] }

/-- Shared state holding one live video endpoint. -/
def sysC6 : SysState :=
  { graph := { bins := [binEx], pads := ["video_stream_0"] }, child := some 5,
    interrupted := [], posted := [], acks := [] }

/-- Messages for the routing witness: audio, video, ignored, audio. -/
def c4Msgs : List IpcMessage :=
  [IpcMessage.stream (StreamMessage.audio
      (StreamMessageData.shmSocketPathAdded "/tmp/a1" "audio/x-raw" "audio_stream")),
   IpcMessage.stream (StreamMessage.video
      (StreamMessageData.capsChanged "video/x-raw, width=800" "video_stream_0")),
   IpcMessage.other,
   IpcMessage.stream (StreamMessage.audio
      (StreamMessageData.shmSocketPathRemoved "/tmp/a1" 21))]

/-- Prefix preceding the fatal message in the control-loop witness. -/
def c2Pre : List IpcMessage :=
  [IpcMessage.stream (StreamMessage.audio
      (StreamMessageData.shmSocketPathAdded "/tmp/a2" "audio/x-raw" "audio_stream")),
   IpcMessage.other,
   IpcMessage.stream (StreamMessage.video
      (StreamMessageData.shmSocketPathRemoved "/tmp/v2" 31))]

/-- Messages queued after the fatal message in the control-loop
witness: never forwarded. -/
def c2Rest : List IpcMessage :=
  [IpcMessage.stream (StreamMessage.video
      (StreamMessageData.shmSocketPathAdded "/tmp/v3" "video/x-raw" "video_stream_0")),
   IpcMessage.error "later"]

/-- Credentials with the api-key/session-id/token triple. -/
def credsApi : Credentials :=
  { apiKey := some "k1", sessionId := some "s1", token := some "t1",
    roomUri := none, streamIdField := none }

/-- Credentials with only a demo-room uri. -/
def credsRoom : Credentials :=
  { apiKey := none, sessionId := none, token := none,
    roomUri := some "https://example.com/room", streamIdField := none }

/-- Element state with api credentials and a stream id already set. -/
def srcApi : SrcState :=
  { child := none, credentials := credsApi, streamId := some "st1",
    auxThreadsRunning := false }

/-- Element state with room credentials and no stream id. -/
def srcRoom : SrcState :=
  { child := none, credentials := credsRoom, streamId := none,
    auxThreadsRunning := false }

/-- Parsed credentials carrying a non-empty stream id. -/
def credsW : Credentials :=
  { apiKey := none, sessionId := some "sess", token := none,
    roomUri := none, streamIdField := some "second" }

/-- Element state whose stream id is already set to `"first"`. -/
def srcW : SrcState :=
  { child := none, credentials := credsApi, streamId := some "first",
    auxThreadsRunning := true }

/-! Theorems. -/

/-- The audio queue produced by the control loop is exactly the
audio-routed image of the prefix of messages before the first fatal
message. -/
theorem runControl_audioQ (msgs : List IpcMessage) (child : Option Nat) :
    (runControl msgs child).audioQ = routeAudio (msgs.takeWhile fun m => !isError m) := by
  induction msgs with
  | nil => rfl
  | cons m rest ih =>
    cases m with
    | error e => simp [runControl, routeAudio, isError, List.takeWhile_cons]
    | stream sm =>
      cases sm with
      | audio d => simp [runControl, routeAudio, isError, List.takeWhile_cons, ih]
      | video d => simp [runControl, routeAudio, isError, List.takeWhile_cons, ih]
    | other => simp [runControl, routeAudio, isError, List.takeWhile_cons, ih]

/-- The video queue produced by the control loop is exactly the
video-routed image of the prefix of messages before the first fatal
message. -/
theorem runControl_videoQ (msgs : List IpcMessage) (child : Option Nat) :
    (runControl msgs child).videoQ = routeVideo (msgs.takeWhile fun m => !isError m) := by
  induction msgs with
  | nil => rfl
  | cons m rest ih =>
    cases m with
    | error e => simp [runControl, routeVideo, isError, List.takeWhile_cons]
    | stream sm =>
      cases sm with
      | audio d => simp [runControl, routeVideo, isError, List.takeWhile_cons, ih]
      | video d => simp [runControl, routeVideo, isError, List.takeWhile_cons, ih]
    | other => simp [runControl, routeVideo, isError, List.takeWhile_cons, ih]

/-- On a fatal-free message sequence the routed prefix is the whole
sequence. -/
theorem takeWhile_of_noFatal (msgs : List IpcMessage)
    (h : ∀ m ∈ msgs, isError m = false) :
    (msgs.takeWhile fun m => !isError m) = msgs := by
  induction msgs with
  | nil => rfl
  | cons m rest ih =>
    have hm : isError m = false := h m (List.mem_cons_self m rest)
    have hr := ih fun x hx => h x (List.mem_cons_of_mem m hx)
    simp [List.takeWhile_cons, hm, hr]

/-- C2: when the control loop receives a `FatalError` (`IpcMessage::
Error`) at any point, it interrupts the child process exactly when a
handle is present (taking the handle, so it is never signaled again),
posts exactly one fatal error message to the pipeline host, and exits
the loop, so no message after the fatal one is forwarded to a worker
queue (no subsequent endpoint mutation is attempted): the queues hold
exactly the routed prefix that preceded the fatal message. -/
theorem claim_c2_fatal_error_control_loop
    (pre rest : List IpcMessage) (child : Option Nat) (e : String)
    (hpre : ∀ m ∈ pre, isError m = false) :
    runControl (pre ++ IpcMessage.error e :: rest) child =
      { audioQ := routeAudio pre, videoQ := routeVideo pre, child := none,
        interrupted := child.toList, posted := ["Child process error " ++ e] } := by
  induction pre with
  | nil => simp [runControl, routeAudio, routeVideo]
  | cons m ms ih =>
    have hm : isError m = false := hpre m (List.mem_cons_self m ms)
    have hms : ∀ x ∈ ms, isError x = false := fun x hx => hpre x (List.mem_cons_of_mem m hx)
    cases m with
    | error s => simp [isError] at hm
    | stream sm =>
      cases sm with
      | audio d => simp [runControl, routeAudio, routeVideo, ih hms]
      | video d => simp [runControl, routeAudio, routeVideo, ih hms]
    | other => simp [runControl, routeAudio, routeVideo, ih hms]

/-- C2 witness: a concrete run with a live child process `3`, two
stream messages and an ignored message before the fatal one, and more
messages (including a second fatal) queued after it. -/
theorem claim_c2_witness :
    runControl (c2Pre ++ IpcMessage.error "boom" :: c2Rest) (some 3) =
      { audioQ := routeAudio c2Pre, videoQ := routeVideo c2Pre, child := none,
        interrupted := [3], posted := ["Child process error boom"] } := by
  have h := claim_c2_fatal_error_control_loop c2Pre c2Rest (some 3) "boom" (by decide)
  simpa using h

/-- C4: the control loop forwards each audio-tagged stream message
unchanged to the audio queue and each video-tagged one to the video
queue, in the exact order received with no cross-delivery — both
queues are the kind-routed image of one common processed prefix — and
when the sequence carries no fatal message that prefix is the whole
sequence, so every stream message is forwarded. -/
theorem claim_c4_routing_order_and_kind (msgs : List IpcMessage) (child : Option Nat) :
    ((runControl msgs child).audioQ = routeAudio (msgs.takeWhile fun m => !isError m)
      ∧ (runControl msgs child).videoQ = routeVideo (msgs.takeWhile fun m => !isError m))
    ∧ ((∀ m ∈ msgs, isError m = false) → (msgs.takeWhile fun m => !isError m) = msgs) :=
  ⟨⟨runControl_audioQ msgs child, runControl_videoQ msgs child⟩,
   takeWhile_of_noFatal msgs⟩

/-- C4 witness: a concrete fatal-free sequence with interleaved kinds
is split into the two queues in order, with nothing cross-delivered. -/
theorem claim_c4_witness :
    (runControl c4Msgs (some 2)).audioQ = routeAudio c4Msgs
    ∧ (runControl c4Msgs (some 2)).videoQ = routeVideo c4Msgs := by
  have h := claim_c4_routing_order_and_kind c4Msgs (some 2)
  have hw : (c4Msgs.takeWhile fun m => !isError m) = c4Msgs := h.2 (by decide)
  exact ⟨hw ▸ h.1.1, hw ▸ h.1.2⟩

/-- C1: evaluation of the add/remove lifecycle.  On the spec's own
scenario — the video worker processes `EndpointAdded` with pad name
`"video_stream_0"` and then `EndpointRemoved` for the same path —
exactly one endpoint bin for the path exists between the two events,
but the removal panics: `remove_stream` removes the bin and then looks
up the ghost pad under the hard-coded name `"video_stream"`, which no
pad carries, so `static_pad(..).unwrap()` kills the thread, the ghost
pad survives and the acknowledgement is never signaled — contradicting
the claim that both bin and ghost pad are removed and the ack fires
exactly once.  On the audio path, whose hard-coded name
`"audio_stream"` matches the added pad, the claimed lifecycle holds:
one endpoint between the events, zero afterward, one ack. -/
theorem claim_c1_endpoint_lifecycle_spec_scenario :
    ((runWorker Kind.video true [c1AddMsg] sys0).isHalted = false
      ∧ ((runWorker Kind.video true [c1AddMsg] sys0).state.graph.bins.countP
          fun b => b.name == "sock1") = 1
      ∧ (runWorker Kind.video true [c1AddMsg] sys0).state.graph.pads = ["video_stream_0"])
    ∧ ((runWorker Kind.video true c1Seq sys0).isHalted = true
      ∧ (runWorker Kind.video true c1Seq sys0).state.graph.bins = []
      ∧ (runWorker Kind.video true c1Seq sys0).state.graph.pads = ["video_stream_0"]
      ∧ (runWorker Kind.video true c1Seq sys0).state.acks = [])
    ∧ runWorker Kind.audio true c1AudioSeq sys0 = RunOut.ok { sys0 with acks := [4] } := by
  decide

/-- C3: evaluation of the removal-acknowledgement guarantee.  On the
audio path the ack is sent exactly once, and independently of the
discarded result of waiting for the stopped state (`let _ =
bin.state(None)`), matching the claim.  But on a video removal whose
endpoint was added under pad name `"video_stream_1"`, the worker
panics on the hard-coded `"video_stream"` pad lookup and the
acknowledgement is never sent — again independently of the state-wait
result — so the blocked remote sender is starved, contradicting the
claim that exactly one ack is sent per removal event. -/
theorem claim_c3_removal_ack_forward_progress :
    ((runWorker Kind.audio true c3AudioSeq sys0b).state.acks = [11]
      ∧ (runWorker Kind.audio false c3AudioSeq sys0b).state.acks = [11]
      ∧ (runWorker Kind.audio true c3AudioSeq sys0b).isHalted = false)
    ∧ ((runWorker Kind.video true c3VideoSeq sys0b).isHalted = true
      ∧ (runWorker Kind.video true c3VideoSeq sys0b).state.acks = []
      ∧ (runWorker Kind.video false c3VideoSeq sys0b).state.acks = []) := by
  decide

/-- C6: a removal event whose path matches no live endpoint leaves the
graph untouched, raises no error (no panic, no posted message, no
interrupt), and still signals the acknowledgement exactly once. -/
theorem claim_c6_absent_removal_noop_and_ack
    (k : Kind) (s : SysState) (p sid : String) (ackId : Nat) (w : Bool)
    (hfile : fileName p = some sid)
    (habsent : s.graph.bins.find? (fun b => b.name == sid) = none) :
    workerStep k (StreamMessageData.shmSocketPathRemoved p ackId) w s =
      RunOut.ok { s with acks := s.acks ++ [ackId] } := by
  simp [workerStep, remove_stream, hfile, habsent]

/-- C6 witness: removing `/tmp/nope` while only the `/tmp/sockE`
endpoint is live acks `13` and changes nothing else. -/
theorem claim_c6_witness :
    workerStep Kind.audio (StreamMessageData.shmSocketPathRemoved "/tmp/nope" 13) true sysC6 =
      RunOut.ok { sysC6 with acks := sysC6.acks ++ [13] } :=
  claim_c6_absent_removal_noop_and_ack Kind.audio sysC6 "/tmp/nope" "nope" 13 true
    (by decide) (by decide)

/-- `setCapsFirst` rewrites exactly the first bin carrying the target
capsfilter name. -/
theorem setCapsFirst_append (target capsStr : String)
    (pre : List EndpointBin) (b : EndpointBin) (post : List EndpointBin)
    (hpre : ∀ b' ∈ pre, b'.capsfilterName ≠ target)
    (hb : b.capsfilterName = target) :
    setCapsFirst target capsStr (pre ++ b :: post) =
      pre ++ { b with caps := capsStr, srcCapsPushed := b.srcCapsPushed ++ [capsStr] } :: post := by
  induction pre with
  | nil => simp [setCapsFirst, hb]
  | cons a as ih =>
    have ha : a.capsfilterName ≠ target := hpre a (List.mem_cons_self a as)
    have has : ∀ x ∈ as, x.capsfilterName ≠ target :=
      fun x hx => hpre x (List.mem_cons_of_mem a hx)
    simp [setCapsFirst, ha, ih has]

/-- C7: on `CapsChanged(target, format)` the video worker locates the
live endpoint's capsfilter by its name `capsfilter_<pad>`, updates its
declared caps to the new format, and explicitly pushes the new format
downstream (`update_src_caps` on the filter), leaving every other
endpoint untouched. -/
theorem claim_c7_caps_update_and_propagation
    (s : SysState) (capsStr padName : String) (w : Bool)
    (pre post : List EndpointBin) (b : EndpointBin)
    (hbins : s.graph.bins = pre ++ b :: post)
    (hpre : ∀ b' ∈ pre, b'.capsfilterName ≠ "capsfilter_" ++ padName)
    (hb : b.capsfilterName = "capsfilter_" ++ padName) :
    workerStep Kind.video (StreamMessageData.capsChanged capsStr padName) w s =
      RunOut.ok { s with graph := { s.graph with bins :=
        pre ++ { b with caps := capsStr, srcCapsPushed := b.srcCapsPushed ++ [capsStr] } :: post } } := by
  simp [workerStep, update_caps, hbins,
    setCapsFirst_append ("capsfilter_" ++ padName) capsStr pre b post hpre hb]

/-- C7 witness: a caps change for pad `video_stream_0` updates the one
live endpoint's capsfilter to the new format and logs exactly one
downstream propagation request for it. -/
theorem claim_c7_witness :
    workerStep Kind.video
        (StreamMessageData.capsChanged "video/x-raw, width=1280" "video_stream_0") true sysC6 =
      RunOut.ok { sysC6 with graph := { sysC6.graph with bins := [binExUpdated] } } :=
  claim_c7_caps_update_and_propagation sysC6 "video/x-raw, width=1280" "video_stream_0" true
    [] [] binEx (by decide) (by simp) (by decide)

/-- C8: teardown clears the running flag, takes the child handle and
signals it exactly when it is present; with no process running nothing
but the flag changes and no signal is issued; a second teardown leaves
the state fixed and issues no further signal, so the process is never
signaled twice and the handle stays `None`. -/
theorem claim_c8_teardown_idempotent (s : SrcState) :
    teardown s = ({ s with auxThreadsRunning := false, child := none }, s.child.toList)
    ∧ teardown (teardown s).1 = ((teardown s).1, []) := by
  cases hc : s.child <;> simp [teardown, hc]

/-- C9: the worker argument list is the direction flag (`src` role),
the IPC rendezvous name, then either the api-key/session-id/token
triple (when an api key is stored) or the demo-room uri (when not),
followed by the optional `--stream-id`; the spawn is attempted once,
failure yields `OpenTokRemoteLaunchFailed` with the state untouched,
and success stores the child handle. -/
theorem claim_c9_launch_args (s : SrcState) (name : String) (spawnOk : Bool) (pid : Nat) :
    (∀ k sid tok, s.credentials.apiKey = some k → s.credentials.sessionId = some sid →
        s.credentials.token = some tok →
        launch_child_process s name spawnOk pid =
          if spawnOk then
            LaunchOut.ok { s with child := some pid }
              (["--direction", "src", "--ipc-server", name, "--api-key", k,
                "--session-id", sid, "--token", tok] ++ streamIdArgs s.streamId)
          else
            LaunchOut.launchFailed s
              (["--direction", "src", "--ipc-server", name, "--api-key", k,
                "--session-id", sid, "--token", tok] ++ streamIdArgs s.streamId))
    ∧ (∀ r, s.credentials.apiKey = none → s.credentials.roomUri = some r →
        launch_child_process s name spawnOk pid =
          if spawnOk then
            LaunchOut.ok { s with child := some pid }
              (["--direction", "src", "--ipc-server", name, "--room-uri", r]
                ++ streamIdArgs s.streamId)
          else
            LaunchOut.launchFailed s
              (["--direction", "src", "--ipc-server", name, "--room-uri", r]
                ++ streamIdArgs s.streamId)) := by
  constructor
  · intro k sid tok hk hs ht
    cases spawnOk <;> simp [launch_child_process, credArgs, hk, hs, ht]
  · intro r hk hr
    cases spawnOk <;> simp [launch_child_process, credArgs, hk, hr]

/-- C9 witness: with the api triple and a stream id the successful
launch stores child `42` and passes exactly the flag sequence; with
only a room uri and a failing spawn, launch fails with the state
untouched and the room-uri argument list. -/
theorem claim_c9_witness :
    launch_child_process srcApi "ipcA" true 42 =
      LaunchOut.ok { srcApi with child := some 42 }
        ["--direction", "src", "--ipc-server", "ipcA", "--api-key", "k1",
         "--session-id", "s1", "--token", "t1", "--stream-id", "st1"]
    ∧ launch_child_process srcRoom "ipcB" false 7 =
      LaunchOut.launchFailed srcRoom
        ["--direction", "src", "--ipc-server", "ipcB", "--room-uri",
         "https://example.com/room"] := by
  constructor
  · have h := (claim_c9_launch_args srcApi "ipcA" true 42).1 "k1" "s1" "t1" rfl rfl rfl
    simpa [srcApi, streamIdArgs] using h
  · have h := (claim_c9_launch_args srcRoom "ipcB" false 7).2 "https://example.com/room" rfl rfl
    simpa [srcRoom, streamIdArgs] using h

/-- C10: every failing `set_location` call — unparseable location, or
a location carrying a non-empty stream id while the stream id is
already set — leaves the stored state (credentials and stream id)
unchanged; the new credentials are installed only on the success path,
and a second stream-id assignment is rejected with an explicit error
instead of overwriting the first value. -/
theorem claim_c10_set_location_error_paths (s : SrcState) (parsed : Option Credentials) :
    ((set_location s parsed).2.isSome = true → (set_location s parsed).1 = s)
    ∧ (parsed = none → set_location s parsed = (s, some "Malformed url"))
    ∧ (∀ creds sid, parsed = some creds → creds.streamIdField = some sid → sid ≠ "" →
        s.streamId.isSome = true →
        set_location s parsed = (s, some "Stream ID can only be set once")) := by
  refine ⟨?_, ?_, ?_⟩
  · intro hsome
    cases parsed with
    | none => rfl
    | some creds =>
      cases hf : creds.streamIdField with
      | none => simp [set_location, hf] at hsome
      | some sid =>
        by_cases hsid : sid = ""
        · simp [set_location, hf, hsid] at hsome
        · cases hstream : s.streamId with
          | none => simp [set_location, set_stream_id, hf, hsid, hstream] at hsome
          | some x => simp [set_location, set_stream_id, hf, hsid, hstream]
  · intro h
    subst h
    rfl
  · intro creds sid hp hf hsid hs
    subst hp
    cases hstream : s.streamId with
    | none => simp [hstream] at hs
    | some x => simp [set_location, set_stream_id, hf, hsid, hstream]

/-- C10 witness: with the stream id already `"first"`, a location whose
credentials carry stream id `"second"` is rejected with the set-once
error and the state is unchanged; an unparseable location is rejected
with the malformed-url error and the state is unchanged. -/
theorem claim_c10_witness :
    set_location srcW (some credsW) = (srcW, some "Stream ID can only be set once")
    ∧ set_location srcW none = (srcW, some "Malformed url") :=
  ⟨(claim_c10_set_location_error_paths srcW (some credsW)).2.2 credsW "second"
      rfl rfl (by decide) rfl,
   (claim_c10_set_location_error_paths srcW none).2.1 rfl⟩

end OpenTokSrcRemote
